import Mathlib

/-!
Shallow embedding of the typed-value model and native-extension wrapper
generator of the repository (src/pyccel/ast/builtins.py and
src/pyccel/ast/cwrapper.py), together with theorems checking the
natural-language specification against it.

Machine values of literals are modelled as `Int`/`Rat`; dtype constructors
keep the source names (`NativeInteger`, ..., `PyccelPyObject`).
-/

namespace Pyccel

/-- Datatype kinds, from datatypes.py (`NativeInteger` ... ) and the two
wrapper dtypes declared in cwrapper.py (`PyccelPyObject`,
`PyccelPyArrayObject`). Compared structurally. -/
inductive DType
  | NativeInteger
  | NativeReal
  | NativeComplex
  | NativeBool
  | NativeString
  | NativeGeneric
  | NativeVoid
  | PyccelPyObject
  | PyccelPyArrayObject
deriving DecidableEq, Repr

/-- Memory order of an array value (the source's `order` being 'C', 'F' or
None; None is `Option.none` at use sites). -/
inductive MemOrder
  | C
  | F
deriving DecidableEq, Repr

/-- One entry of a shape tuple: a literal size (the source stores a
`LiteralInteger` node) or a symbolic size expression. -/
inductive SizeE
  | lit (n : Nat)
  | sym (s : String)
deriving DecidableEq, Repr

/-- Literal leaves (literals.py): Integer/Float/Complex/Bool/String, each
carrying its concrete value; complex literals carry separate real/imag
parts. Numeric literals carry a precision in bytes. -/
inductive Lit
  | int (v : Int) (precision : Nat)
  | float (v : Rat) (precision : Nat)
  | cplx (re im : Rat) (precision : Nat)
  | bool (v : Bool) (precision : Nat)
  | str (s : String)
deriving DecidableEq, Repr

/-- Modelled from the spec: `default_precision` of datatypes.py is not under
src/. The spec fixes no widths; we use 8 bytes for integer, real and complex
and 4 for bool, matching the 64-bit host the format-code registry targets. -/
def dpInteger : Nat := 8

/-- Modelled from the spec: default real precision (see `dpInteger`). -/
def dpReal : Nat := 8

/-- Modelled from the spec: default complex precision (see `dpInteger`). -/
def dpComplex : Nat := 8

/-- Modelled from the spec: default bool precision (see `dpInteger`). -/
def dpBool : Nat := 4

/-- Modelled from the spec: the `default_precision` table of datatypes.py
(not under src/), keyed by dtype; dtypes without an entry (the lookup would
raise) give `none`. -/
def default_precision : DType → Option Nat
  | .NativeInteger => some dpInteger
  | .NativeReal => some dpReal
  | .NativeComplex => some dpComplex
  | .NativeBool => some dpBool
  | _ => none

namespace Lit

/-- Dtype of a literal. -/
def dtype : Lit → DType
  | .int _ _ => .NativeInteger
  | .float _ _ => .NativeReal
  | .cplx _ _ _ => .NativeComplex
  | .bool _ _ => .NativeBool
  | .str _ => .NativeString

/-- Precision of a literal (strings have none; 0 stands for not applicable). -/
def precision : Lit → Nat
  | .int _ p => p
  | .float _ p => p
  | .cplx _ _ p => p
  | .bool _ p => p
  | .str _ => 0

/-- The `python_value` of a non-complex literal as a number, when it is one:
Python coerces booleans to 0/1 in arithmetic; strings have no numeric value
(adding one raises), and complex literals are taken apart by `isinstance`
checks before any such coercion in the source. -/
def numValue : Lit → Option Rat
  | .int v _ => some (v : Rat)
  | .float v _ => some v
  | .bool b _ => some (if b then 1 else 0)
  | .cplx _ _ _ => none
  | .str _ => none

/-- Whether `python_value == 0` holds for the literal (Python equality:
`False == 0` is true, `0j == 0` is true, a string never equals 0). -/
def isZero : Lit → Bool
  | .int v _ => v == 0
  | .float v _ => v == 0
  | .cplx re im _ => re == 0 && im == 0
  | .bool b _ => !b
  | .str _ => false

/-- Real part of a literal seen as a complex number (non-complex numerics
contribute their value, booleans 0/1, strings 0 by convention — the string
case never feeds a fold, which errors first). -/
def re : Lit → Rat
  | .cplx r _ _ => r
  | .int v _ => (v : Rat)
  | .float v _ => v
  | .bool b _ => if b then 1 else 0
  | .str _ => 0

/-- Imaginary part of a literal seen as a complex number. -/
def im : Lit → Rat
  | .cplx _ i _ => i
  | _ => 0

/-- Whether the literal is a string literal. -/
def isStr : Lit → Bool
  | .str _ => true
  | _ => false

/-- Whether the literal is the zero/default value of its dtype: a numeric
zero, `False`, or the empty string. -/
def isDefaultZero : Lit → Bool
  | .int v _ => v == 0
  | .float v _ => v == 0
  | .cplx r i _ => r == 0 && i == 0
  | .bool b _ => !b
  | .str s => s == ""

end Lit

/-- Typed AST values the builtin layer manipulates: literals, variables
(carrying dtype/precision/rank/order/shape fixed at construction), the
arithmetic operator nodes builtins.py builds (`PyccelAdd`, `PyccelMinus`,
`PyccelMul`, `PyccelUnarySub`), the imaginary-unit literal, the
`.real`/`.imag` property nodes (`PythonComplexProperty`) and the unfolded
`int()` cast node (`PythonInt`). -/
inductive Expr
  | lit (l : Lit)
  | var (name : String) (dtype : DType) (precision : Nat) (rank : Nat)
        (order : Option MemOrder) (shape : Option (List SizeE))
  | pyccelAdd (a b : Expr)
  | pyccelMinus (a b : Expr)
  | pyccelMul (a b : Expr)
  | pyccelUnarySub (a : Expr)
  | imaginaryUnit
  | realProp (arg : Expr)
  | imagProp (arg : Expr)
  | pythonIntNode (arg : Expr)
deriving DecidableEq, Repr

/-- Modelled from the spec: the numeric promotion order of operators.py (not
under src/) — Complex > Real > Integer > Bool (spec section 3). Used only to
give the operator nodes a dtype; the claims never depend on it. -/
def DType.promote (a b : DType) : DType :=
  if a = .NativeComplex ∨ b = .NativeComplex then .NativeComplex
  else if a = .NativeReal ∨ b = .NativeReal then .NativeReal
  else if a = .NativeInteger ∨ b = .NativeInteger then .NativeInteger
  else if a = .NativeBool ∨ b = .NativeBool then .NativeBool
  else .NativeGeneric

namespace Expr

/-- Dtype of a typed value. `realProp`/`imagProp` carry the class attribute
`_dtype = NativeReal()` of `PythonComplexProperty`; the `int()` cast node the
class attribute `_dtype = NativeInteger()` of `PythonInt`; operator dtypes
follow the spec's promotion order (operators.py is not under src/). -/
def dtype : Expr → DType
  | .lit l => l.dtype
  | .var _ dt _ _ _ _ => dt
  | .pyccelAdd a b => DType.promote a.dtype b.dtype
  | .pyccelMinus a b => DType.promote a.dtype b.dtype
  | .pyccelMul a b => DType.promote a.dtype b.dtype
  | .pyccelUnarySub a => a.dtype
  | .imaginaryUnit => .NativeComplex
  | .realProp _ => .NativeReal
  | .imagProp _ => .NativeReal
  | .pythonIntNode _ => .NativeInteger

/-- Precision of a typed value. `PythonComplexProperty.__init__` sets
`self._precision = arg.precision`; `PythonInt` has the class attribute
`_precision = default_precision['integer']`; operator precisions are
modelled (operators.py is not under src/) as the max of the operands. -/
def precision : Expr → Nat
  | .lit l => l.precision
  | .var _ _ p _ _ _ => p
  | .pyccelAdd a b => Nat.max a.precision b.precision
  | .pyccelMinus a b => Nat.max a.precision b.precision
  | .pyccelMul a b => Nat.max a.precision b.precision
  | .pyccelUnarySub a => a.precision
  | .imaginaryUnit => dpComplex
  | .realProp a => a.precision
  | .imagProp a => a.precision
  | .pythonIntNode _ => dpInteger

/-- Rank of a typed value: literals and the scalar builtin nodes
(`_rank = 0` class attributes) are rank 0; operator ranks are modelled as
the max of the operands (operators.py is not under src/). -/
def rank : Expr → Nat
  | .lit _ => 0
  | .var _ _ _ r _ _ => r
  | .pyccelAdd a b => Nat.max a.rank b.rank
  | .pyccelMinus a b => Nat.max a.rank b.rank
  | .pyccelMul a b => Nat.max a.rank b.rank
  | .pyccelUnarySub a => a.rank
  | .imaginaryUnit => 0
  | .realProp _ => 0
  | .imagProp _ => 0
  | .pythonIntNode _ => 0

/-- Memory order of a typed value (only array variables carry one). -/
def order : Expr → Option MemOrder
  | .var _ _ _ _ o _ => o
  | _ => none

/-- Shape of a typed value: scalar nodes have the empty shape `()`
(`_shape = ()` class attributes); a variable may have an unknown (`None`)
shape; operator shapes are modelled as scalar. -/
def shape : Expr → Option (List SizeE)
  | .var _ _ _ _ _ s => s
  | _ => some []

/-- Whether the value is a `Literal` instance. -/
def isLit : Expr → Bool
  | .lit _ => true
  | _ => false

end Expr

/-- Whether `isinstance(e, Literal) and e.python_value == 0` holds. -/
def isLitZeroE : Expr → Bool
  | .lit l => l.isZero
  | _ => false

/-- Modelled from the spec: `get_default_literal_value` of literals.py is
not under src/; the spec says the imaginary-part accessor on a non-Complex
value returns "a zero-valued literal matching that value's dtype". Dtypes
with no default (the source lookup would raise) give `none`. -/
def get_default_literal_value : DType → Option Lit
  | .NativeInteger => some (.int 0 dpInteger)
  | .NativeReal => some (.float 0 dpReal)
  | .NativeComplex => some (.cplx 0 0 dpComplex)
  | .NativeBool => some (.bool false dpBool)
  | .NativeString => some (.str "")
  | _ => none

/-- `PythonReal.__new__`: a value that is not Complex is returned unchanged;
a Complex value gets a `.real` property node. -/
def PythonReal (arg : Expr) : Expr :=
  if arg.dtype = .NativeComplex then .realProp arg else arg

/-- `PythonImag.__new__`: a Complex value gets a `.imag` property node; a
non-Complex value yields `get_default_literal_value(arg.dtype)` (a fresh
zero literal; `none` when that lookup raises in the source). -/
def PythonImag (arg : Expr) : Option Expr :=
  if arg.dtype = .NativeComplex then some (.imagProp arg)
  else (get_default_literal_value arg.dtype).map .lit

/-- The state `PythonComplex.__init__` leaves on a `PythonComplex` node:
the `is_cast` flag, the real/imag part expressions and, when casting, the
back-reference to the operand being cast. -/
structure PythonComplex where
  is_cast : Bool
  real : Expr
  imag : Expr
  internal_var : Option Expr
deriving DecidableEq, Repr

/-- `PythonComplex.__init__` (builtins.py lines 180-209). On Complex-typed
arguments the source's calls `PythonReal(arg)` / `PythonImag(arg)` return
the property nodes `realProp arg` / `imagProp arg` (see
`PythonImag_on_complex` below); `PythonReal` is called as is. -/
def PythonComplex_init (arg0 arg1 : Expr) : PythonComplex :=
  let is_cast := arg0.dtype = .NativeComplex ∧ isLitZeroE arg1 = true
  if is_cast then
    { is_cast := true, real := PythonReal arg0, imag := .imagProp arg0,
      internal_var := some arg0 }
  else if arg0.dtype = .NativeComplex ∧ ¬ isLitZeroE arg1 = true then
    { is_cast := false, real := PythonReal arg0,
      imag := .pyccelAdd (.imagProp arg0) arg1, internal_var := none }
  else if arg1.dtype = .NativeComplex then
    if isLitZeroE arg0 then
      { is_cast := false, real := .pyccelUnarySub (.imagProp arg1),
        imag := PythonReal arg1, internal_var := none }
    else
      { is_cast := false, real := .pyccelMinus arg0 (.imagProp arg1),
        imag := PythonReal arg1, internal_var := none }
  else
    { is_cast := false, real := arg0, imag := arg1, internal_var := none }

/-- The possible outcomes of calling the `complex()` constructor
(`PythonComplex.__new__`): a folded `LiteralComplex` (no call node), a
rewrite into `arg0 + arg1 * 1j`, a `PythonComplex` node (on which
`__init__` then runs), or a Python `TypeError` from adding a non-numeric
literal during the fold. -/
inductive PythonComplexResult
  | folded (l : Lit)
  | rewritten (e : Expr)
  | node (n : PythonComplex)
  | err
deriving DecidableEq, Repr

/-- `PythonComplex.__new__` (builtins.py lines 149-178), with
`arg1 = LiteralFloat(0)` as the source's default. If both arguments are
literals the call folds: real/imag accumulators start at 0; a complex
argument contributes through its parts (the second argument's real part
feeds the imaginary accumulator and its imaginary part is subtracted from
the real accumulator), a non-complex one through its `python_value`.
Otherwise, two Complex-typed arguments rewrite to an add/mul expression,
and any other combination creates the node `__init__` fills in. -/
def PythonComplex_new (arg0 : Expr) (arg1 : Expr := .lit (.float 0 dpReal)) :
    PythonComplexResult :=
  match arg0, arg1 with
  | .lit l0, .lit l1 =>
    let step0 : Option (Rat × Rat) :=
      match l0 with
      | .cplx r i _ => some (0 + r, 0 + i)
      | _ => (l0.numValue).map fun v => (0 + v, 0)
    let step1 : Option (Rat × Rat) :=
      step0.bind fun p =>
        match l1 with
        | .cplx r i _ => some (p.1 - i, p.2 + r)
        | _ => (l1.numValue).map fun v => (p.1, p.2 + v)
    match step1 with
    | some p => .folded (.cplx p.1 p.2 dpComplex)
    | none => .err
  | _, _ =>
    if arg0.dtype = .NativeComplex ∧ arg1.dtype = .NativeComplex then
      .rewritten (.pyccelAdd arg0 (.pyccelMul arg1 .imaginaryUnit))
    else
      .node (PythonComplex_init arg0 arg1)

/-- The `is_cast` flag the outcome of `complex()` carries: only an actual
`PythonComplex` node has one; a folded literal or a rewritten expression
has none (read as `false`). -/
def resultIsCast : PythonComplexResult → Bool
  | .node n => n.is_cast
  | _ => false

/-- The `internal_var` back-reference of the outcome of `complex()`: only a
`PythonComplex` node holds one. -/
def resultInternalVar : PythonComplexResult → Option Expr
  | .node n => n.internal_var
  | _ => none

/-- `PythonInt.__new__` (builtins.py lines 296-300): a `LiteralInteger`
argument folds directly into a `LiteralInteger` at the class precision
`default_precision['integer']`; any other argument gets a cast node. -/
def PythonInt_new (arg : Expr) : Expr :=
  match arg with
  | .lit (.int v _) => .lit (.int v dpInteger)
  | _ => .pythonIntNode arg

/-- The state `PythonTuple.__init__` leaves on a tuple node. Fields the
source sets only on some paths (class defaults elsewhere) are `Option`s:
a zero-element tuple is an untyped placeholder. -/
structure PythonTuple where
  args : List Expr
  is_homogeneous : Bool
  inconsistent_shape : Option Bool
  dtype : Option DType
  precision : Option Nat
  rank : Option Nat
  shape : Option (List SizeE)
deriving DecidableEq, Repr

/-- The source's homogeneity test (builtins.py lines 323-326): every
element after the first shares dtype, rank and order with element 0 and is
not Generic (vacuously true for a single element). -/
def tupleIsHomog (a0 : Expr) (rest : List Expr) : Bool :=
  rest.all fun a =>
    decide (a.dtype ≠ DType.NativeGeneric) && decide (a0.dtype = a.dtype) &&
    decide (a0.rank = a.rank) && decide (a0.order = a.order)

/-- The source's `inconsistent_shape` flag (builtins.py line 327): some
element after the first has a shape differing from element 0's. -/
def tupleInconsistentShape (a0 : Expr) (rest : List Expr) : Bool :=
  ! rest.all fun a => decide (a0.shape = a.shape)

/-- Python's `max` over the precisions of a non-empty list of elements. -/
def maxPrecision (xs : List Expr) : Nat :=
  (xs.map Expr.precision).foldl Nat.max 0

/-- Python's `max` over the ranks of a non-empty list of elements. -/
def maxRank (xs : List Expr) : Nat :=
  (xs.map Expr.rank).foldl Nat.max 0

/-- The numeric-class cascade of the homogeneous branch (builtins.py lines
330-351, strings having been handled first): partition by dtype, choose the
highest class present with the max precision of that class; `none` when no
class matches (the source then raises `TypeError`). -/
def tupleNumericDtypePrec (all : List Expr) : Option (DType × Nat) :=
  let complexes := all.filter fun a => decide (a.dtype = DType.NativeComplex)
  let reals := all.filter fun a => decide (a.dtype = DType.NativeReal)
  let integers := all.filter fun a => decide (a.dtype = DType.NativeInteger)
  let bools := all.filter fun a => decide (a.dtype = DType.NativeBool)
  if !complexes.isEmpty then some (.NativeComplex, maxPrecision complexes)
  else if !reals.isEmpty then some (.NativeReal, maxPrecision reals)
  else if !integers.isEmpty then some (.NativeInteger, maxPrecision integers)
  else if !bools.isEmpty then some (.NativeBool, maxPrecision bools)
  else none

/-- The homogeneous branch of `PythonTuple.__init__` (builtins.py lines
329-360; reached only when the homogeneity flag, stored as `true` here, is
set): a tuple with a string element degenerates to a scalar String;
otherwise the numeric cascade types it (raising when empty), and when every
element's shape is known the shape is `(len,) + shape(element 0)` and the
rank its length, else rank is max(element ranks) + 1 and the shape stays
unset. -/
def tupleHomogBranch (a0 : Expr) (rest : List Expr) : Except String PythonTuple :=
  let all := a0 :: rest
  let strs := all.filter fun a => decide (a.dtype = DType.NativeString)
  if !strs.isEmpty then
    .ok { args := all, is_homogeneous := true,
          inconsistent_shape := some (tupleInconsistentShape a0 rest),
          dtype := some .NativeString, precision := none,
          rank := some 0, shape := some [] }
  else
    match tupleNumericDtypePrec all with
    | none => .error "cannot determine the type"
    | some dt =>
      match a0.shape, rest.all fun a => a.shape.isSome with
      | some s0, true =>
        .ok { args := all, is_homogeneous := true,
              inconsistent_shape := some (tupleInconsistentShape a0 rest),
              dtype := some dt.1, precision := some dt.2,
              rank := some (s0.length + 1),
              shape := some (SizeE.lit all.length :: s0) }
      | _, _ =>
        .ok { args := all, is_homogeneous := true,
              inconsistent_shape := some (tupleInconsistentShape a0 rest),
              dtype := some dt.1, precision := some dt.2,
              rank := some (maxRank all + 1), shape := none }

/-- The heterogeneous branch of `PythonTuple.__init__` (builtins.py lines
362-366): dtype Generic, precision 0, rank max(element ranks) + 1, shape
`(len,) + shape(element 0)` — the concatenation raising when element 0's
shape is unknown (`None`). -/
def tupleHeteroBranch (a0 : Expr) (rest : List Expr) : Except String PythonTuple :=
  let all := a0 :: rest
  match a0.shape with
  | some s0 =>
    .ok { args := all, is_homogeneous := false,
          inconsistent_shape := some (tupleInconsistentShape a0 rest),
          dtype := some .NativeGeneric, precision := some 0,
          rank := some (maxRank all + 1),
          shape := some (SizeE.lit all.length :: s0) }
  | none => .error "can only concatenate tuple (not NoneType) to tuple"

/-- `PythonTuple.__init__` (builtins.py lines 318-366) at the semantic
stage. A zero-element tuple keeps the class defaults (untyped placeholder);
otherwise the homogeneity flag selects between the homogeneous and
heterogeneous typing branches above. -/
def PythonTuple_init (args : List Expr) : Except String PythonTuple :=
  match args with
  | [] => .ok { args := [], is_homogeneous := false, inconsistent_shape := none,
                dtype := none, precision := none, rank := none, shape := none }
  | a0 :: rest =>
    if tupleIsHomog a0 rest then tupleHomogBranch a0 rest
    else tupleHeteroBranch a0 rest

/-- The aggregate-homogeneity condition as the specification's claim states
it: every element shares dtype, rank and memory order with element 0 and no
element (element 0 included) has dtype Generic. -/
def tupleClaimHomog (a0 : Expr) (rest : List Expr) : Bool :=
  (a0 :: rest).all fun a =>
    decide (a.dtype = a0.dtype) && decide (a.rank = a0.rank) &&
    decide (a.order = a0.order) && decide (a.dtype ≠ DType.NativeGeneric)

/-- The typing facts a `PythonSum` node carries (builtins.py lines 546-553):
dtype of the argument, rank 0, empty shape, and precision from the
`default_precision` table for that dtype. -/
structure PythonSum where
  dtype : DType
  precision : Nat
  rank : Nat
deriving DecidableEq, Repr

/-- `PythonSum.__init__`: the argument (any AST value) gives the dtype;
the precision is `default_precision[str_dtype(dtype)]` — `none` models the
lookup raising for a dtype with no default. -/
def PythonSum_init (arg : Expr) : Option PythonSum :=
  (default_precision arg.dtype).map fun p => { dtype := arg.dtype, precision := p, rank := 0 }

/-- The typing facts a `PythonMax` node carries (builtins.py lines 566-573):
dtype and precision of the aggregate argument, rank 0, empty shape. -/
structure PythonMax where
  dtype : Option DType
  precision : Option Nat
  rank : Nat
deriving DecidableEq, Repr

/-- `PythonMax.__init__` over a `PythonTuple`/`PythonList` argument (the
accepted plain list/tuple inputs have no dtype and crash in the source). -/
def PythonMax_init (x : PythonTuple) : PythonMax :=
  { dtype := x.dtype, precision := x.precision, rank := 0 }

/-- The typing facts a `PythonMin` node carries (builtins.py lines 582-587):
dtype and precision of the argument, rank 0, empty shape. -/
structure PythonMin where
  dtype : DType
  precision : Nat
  rank : Nat
deriving DecidableEq, Repr

/-- `PythonMin.__init__` (no argument type check in the source). -/
def PythonMin_init (x : Expr) : PythonMin :=
  { dtype := x.dtype, precision := x.precision, rank := 0 }

/-! Wrapper protocol generator (src/pyccel/ast/cwrapper.py). -/

/-- A `Variable` as cwrapper.py uses them: dtype, name, pointer flag and
precision in bytes. -/
structure CwVariable where
  dtype : DType
  name : String
  is_pointer : Bool := false
  precision : Nat := 0
deriving DecidableEq, Repr

/-- The canonical host-runtime True singleton (cwrapper.py line 251). -/
def Py_True : CwVariable :=
  { dtype := .PyccelPyObject, name := "Py_True", is_pointer := true }

/-- The canonical host-runtime False singleton (cwrapper.py line 252). -/
def Py_False : CwVariable :=
  { dtype := .PyccelPyObject, name := "Py_False", is_pointer := true }

/-- The host-runtime None singleton (cwrapper.py line 255). -/
def Py_None : CwVariable :=
  { dtype := .PyccelPyObject, name := "Py_None", is_pointer := true }

/-- The `PyArray_Type` variable spliced before an array parse target
(cwrapper.py line 79). -/
def PyArray_Type : CwVariable :=
  { dtype := .NativeGeneric, name := "PyArray_Type" }

/-- The immutable `(dtype, precision) -> format code` table
`pytype_parse_registry` (cwrapper.py lines 109-122); pairs with no entry
give `none` (the source lookup raises `KeyError`). -/
def pytype_parse_registry : DType → Nat → Option String
  | .NativeInteger, 4 => some "i"
  | .NativeInteger, 8 => some "l"
  | .NativeInteger, 2 => some "h"
  | .NativeInteger, 1 => some "b"
  | .NativeReal, 8 => some "d"
  | .NativeReal, 4 => some "f"
  | .NativeComplex, 4 => some "O"
  | .NativeComplex, 8 => some "O"
  | .NativeBool, 4 => some "p"
  | .NativeString, 0 => some "s"
  | .PyccelPyObject, 0 => some "O"
  | .PyccelPyArrayObject, 0 => some "O!"
  | _, _ => none

/-- A native function argument as `PyArg_ParseTupleNode` receives them:
a plain `Variable`, a `ValuedVariable` (a variable with a default value) or
a `FunctionAddress` (a callable parameter). -/
inductive CFuncArg
  | plain (v : CwVariable) (kwonly : Bool)
  | valued (v : CwVariable) (kwonly : Bool)
  | funcAddress (name : String) (kwonly : Bool)
deriving DecidableEq, Repr

/-- Whether the argument is a `ValuedVariable` (has a default). -/
def CFuncArg.isValued : CFuncArg → Bool
  | .valued _ _ => true
  | _ => false

/-- Whether the argument is a `FunctionAddress` (a callable parameter). -/
def CFuncArg.isFuncAddr : CFuncArg → Bool
  | .funcAddress _ _ => true
  | _ => false

/-- Whether the argument is keyword-only. -/
def CFuncArg.is_kwonly : CFuncArg → Bool
  | .plain _ k => k
  | .valued _ k => k
  | .funcAddress _ k => k

/-- The errors wrapper-node construction can raise: the explicit
`TypeError`s of the argument checks, the `NotImplementedError` of
`get_pytype`, and the bare `KeyError` of the unguarded registry lookup in
`PyBuildValueNode`. -/
inductive CwErr
  | typeError (msg : String)
  | notImplemented (msg : String)
  | keyError
deriving DecidableEq, Repr

/-- `PyArg_ParseTupleNode.get_pytype` (cwrapper.py lines 188-198): a
`FunctionAddress` c-argument always gets the opaque-object code; otherwise
the `(dtype, precision)` of the parse target is looked up in
`pytype_parse_registry`, a missing entry raising `NotImplementedError`
("Type not implemented for argument collection : " plus the parse target's
class, which is `Variable` here). -/
def get_pytype (c_arg : CFuncArg) (parse_arg : CwVariable) : Except CwErr String :=
  match c_arg with
  | .funcAddress _ _ => .ok "O"
  | _ =>
    match pytype_parse_registry parse_arg.dtype parse_arg.precision with
    | some s => .ok s
    | none => .error (.notImplemented "Type not implemented for argument collection : Variable")

/-- The format codes of a run of (c-argument, parse-target) pairs,
concatenated in order; the first failing `get_pytype` aborts. -/
def codesFor : List (CFuncArg × CwVariable) → Except CwErr String
  | [] => .ok ""
  | cp :: rest =>
    match get_pytype cp.1 cp.2 with
    | .error e => .error e
    | .ok s =>
      match codesFor rest with
      | .error e => .error e
      | .ok r => .ok (s ++ r)

/-- The two `while` loops of `PyArg_ParseTupleNode.__init__` (cwrapper.py
lines 162-172): codes are appended until the first `ValuedVariable`; if any
arguments remain a single `|` is appended, then the codes of the rest. -/
def parseFlagsPairs (pairs : List (CFuncArg × CwVariable)) : Except CwErr String :=
  let pre := pairs.takeWhile fun cp => !cp.1.isValued
  let post := pairs.dropWhile fun cp => !cp.1.isValued
  match codesFor pre with
  | .error e => .error e
  | .ok f1 =>
    if post.isEmpty then .ok f1
    else
      match codesFor post with
      | .error e => .error e
      | .ok f2 => .ok (f1 ++ "|" ++ f2)

/-- The `PyArgKeywords` node: the keyword-name list variable. -/
structure PyArgKeywords where
  name : String
  arg_names : List String
deriving DecidableEq, Repr

/-- The warning `errors.report` emits when a keyword-only argument is
present (cwrapper.py lines 174-176). -/
def kwonlyWarning : String :=
  "Kwarg only arguments without default values will not raise an error if they are not passed"

/-- The state a constructed `PyArg_ParseTupleNode` holds: the two host call
record variables, the synthesized format string, the stored parse targets
(an array target preceded by `PyArray_Type`), the keyword names and the
warnings reported during construction. -/
structure PyArg_ParseTupleNode where
  pyarg : CwVariable
  pykwarg : CwVariable
  flags : String
  parse_args : List CwVariable
  arg_names : PyArgKeywords
  warnings : List String
deriving DecidableEq, Repr

/-- `PyArg_ParseTupleNode.__init__` (cwrapper.py lines 145-186). The
`isinstance` checks on the host variables, the argument lists and the
keyword node hold by typing here (the parse-args check of line 155 is also
inert in the source: its `and` makes it pass for any list). The length
check raises `TypeError` before any format synthesis; then the format
string is synthesized (possibly raising `NotImplementedError`), the
keyword-only warning is reported, and array parse targets are expanded to
`[PyArray_Type, target]`. -/
def PyArg_ParseTupleNode_init (python_func_args python_func_kwargs : CwVariable)
    (c_func_args : List CFuncArg) (parse_args : List CwVariable)
    (arg_names : PyArgKeywords) : Except CwErr PyArg_ParseTupleNode :=
  if parse_args.length ≠ c_func_args.length then
    .error (.typeError "There should be the same number of c_func_args and parse_args")
  else
    match parseFlagsPairs (c_func_args.zip parse_args) with
    | .error e => .error e
    | .ok flags =>
      let warnings := if c_func_args.any CFuncArg.is_kwonly then [kwonlyWarning] else []
      let stored := (parse_args.map fun a =>
        if a.dtype = .PyccelPyArrayObject then [PyArray_Type, a] else [a]).flatten
      .ok { pyarg := python_func_args, pykwarg := python_func_kwargs,
            flags := flags, parse_args := stored, arg_names := arg_names,
            warnings := warnings }

/-- The state a constructed `PyBuildValueNode` holds. -/
structure PyBuildValueNode where
  flags : String
  result_args : List CwVariable
deriving DecidableEq, Repr

/-- The format codes of the result arguments, via the unguarded registry
lookup of `PyBuildValueNode.__init__` (cwrapper.py line 235): a missing
`(dtype, precision)` entry raises a bare `KeyError`. -/
def buildFlags : List CwVariable → Except CwErr String
  | [] => .ok ""
  | r :: rest =>
    match pytype_parse_registry r.dtype r.precision with
    | some s => (buildFlags rest).map fun t => s ++ t
    | none => .error .keyError

/-- `PyBuildValueNode.__init__` (cwrapper.py lines 231-236). -/
def PyBuildValueNode_init (result_args : List CwVariable) :
    Except CwErr PyBuildValueNode :=
  (buildFlags result_args).map fun f => { flags := f, result_args := result_args }

/-- Expressions appearing in the generated cast-function bodies:
variables, `VariableAddress` references, the `PyccelEq` comparison and the
`PythonBool` truth test. -/
inductive CExpr
  | evar (v : CwVariable)
  | varAddress (v : CwVariable)
  | pyccelEq (a b : CExpr)
  | pythonBoolE (a : CExpr)
deriving DecidableEq, Repr

/-- Statements of the generated cast-function bodies. -/
inductive CStmt
  | assign (lhs : CwVariable) (rhs : CExpr)
  | ret (vals : List CwVariable)
deriving DecidableEq, Repr

/-- A generated `FunctionDef`: name, arguments, body and results. -/
structure CFunctionDef where
  name : String
  arguments : List CwVariable
  body : List CStmt
  results : List CwVariable
deriving DecidableEq, Repr

/-- `pybool_to_bool` (cwrapper.py lines 382-392): the HostObject-to-Bool
cast function. Its body assigns to the result the `PyccelEq` of the
argument's address with `Py_True`'s address, then returns the result. -/
def pybool_to_bool (cast_function_name : String) : CFunctionDef :=
  let cast_function_argument : CwVariable :=
    { dtype := .PyccelPyObject, name := "o", is_pointer := true }
  let cast_function_result : CwVariable := { dtype := .NativeBool, name := "c" }
  { name := cast_function_name,
    arguments := [cast_function_argument],
    body := [.assign cast_function_result
              (.pyccelEq (.varAddress cast_function_argument) (.varAddress Py_True)),
             .ret [cast_function_result]],
    results := [cast_function_result] }

/-- Whether a cast-body expression mentions the given variable (plainly or
through an address reference). -/
def cexprMentions (v : CwVariable) : CExpr → Bool
  | .evar w => decide (w = v)
  | .varAddress w => decide (w = v)
  | .pyccelEq a b => cexprMentions v a || cexprMentions v b
  | .pythonBoolE a => cexprMentions v a

/-- Whether a cast-body statement mentions the given variable. -/
def cstmtMentions (v : CwVariable) : CStmt → Bool
  | .assign lhs rhs => decide (lhs = v) || cexprMentions v rhs
  | .ret vals => vals.any fun w => decide (w = v)

/-- Whether some statement of the function's body assigns the result of an
identity (`PyccelEq` of two `VariableAddress`es) comparison with `v`. -/
def comparesByIdentityWith (f : CFunctionDef) (v : CwVariable) : Bool :=
  f.body.any fun s =>
    match s with
    | .assign _ (.pyccelEq (.varAddress _) (.varAddress w)) => decide (w = v)
    | _ => false

/-- Whether an expression contains a `PythonBool` truth-test node. -/
def hasTruthTest : CExpr → Bool
  | .pythonBoolE _ => true
  | .pyccelEq a b => hasTruthTest a || hasTruthTest b
  | _ => false

/-- Whether the function's body applies a generic truth test (`PythonBool`)
anywhere. -/
def usesGenericTruthTest (f : CFunctionDef) : Bool :=
  f.body.any fun s =>
    match s with
    | .assign _ r => hasTruthTest r
    | .ret _ => false

/-! Theorems checking the specification's claims against the embedding. -/

/-- C1: for every pair of numeric literal arguments the two-argument
complex constructor folds immediately: the result is a single Complex
literal whose real part is re(arg0) - im(arg1) and whose imaginary part is
im(arg0) + re(arg1) at the default complex precision — no constructor call
node is created; in particular `complex(1, 2)` folds to the Complex literal
with real 1 and imag 2. (String literals are excluded: adding one during
the fold raises in Python.) -/
theorem pythonComplex_literal_folding (l0 l1 : Lit)
    (h0 : l0.isStr = false) (h1 : l1.isStr = false) :
    PythonComplex_new (.lit l0) (.lit l1) =
      .folded (.cplx (l0.re - l1.im) (l0.im + l1.re) dpComplex) ∧
    PythonComplex_new (.lit (.int 1 dpInteger)) (.lit (.int 2 dpInteger)) =
      .folded (.cplx 1 2 dpComplex) := by
  constructor
  · cases l0 <;> cases l1 <;>
      simp_all [PythonComplex_new, Lit.numValue, Lit.re, Lit.im, Lit.isStr]
  · simp [PythonComplex_new, Lit.numValue]

/-- Witness for C1 at the concrete literals 3 and 4 (with the
`complex(1, 2)` instance carried along). -/
theorem pythonComplex_literal_folding_witness :
    PythonComplex_new (.lit (.int 3 dpInteger)) (.lit (.int 4 dpInteger)) =
      .folded (.cplx ((Lit.int 3 dpInteger).re - (Lit.int 4 dpInteger).im)
                     ((Lit.int 3 dpInteger).im + (Lit.int 4 dpInteger).re) dpComplex) ∧
    PythonComplex_new (.lit (.int 1 dpInteger)) (.lit (.int 2 dpInteger)) =
      .folded (.cplx 1 2 dpComplex) :=
  pythonComplex_literal_folding (.int 3 dpInteger) (.int 4 dpInteger) rfl rfl

/-- C2 counterexample: for the Complex literal a = 1+2j, `complex(a, 0)`
takes the both-literals branch and folds to a Complex literal — no
`PythonComplex` node exists, so its `is_cast` is not true and it holds no
internal operand reference, contradicting the claim for literal Complex
arguments. -/
theorem pythonComplex_literal_cast_counterexample :
    resultIsCast (PythonComplex_new (.lit (.cplx 1 2 dpComplex)) (.lit (.float 0 dpReal))) = false ∧
    resultInternalVar (PythonComplex_new (.lit (.cplx 1 2 dpComplex)) (.lit (.float 0 dpReal))) = none ∧
    PythonComplex_new (.lit (.cplx 1 2 dpComplex)) (.lit (.float 0 dpReal)) =
      .folded (.cplx 1 2 dpComplex) := by
  refine ⟨rfl, rfl, ?_⟩
  simp [PythonComplex_new, Lit.numValue]

/-- C2 as amended: for every non-literal value a of dtype Complex and every
non-Complex literal zero second argument (the source default is the float
literal 0), `complex(a, 0)` builds a `PythonComplex` node with
`is_cast = true` whose internal operand reference is a itself; a Complex
literal a instead folds away (see the counterexample). -/
theorem pythonComplex_cast_nonliteral (a : Expr) (l1 : Lit)
    (hlit : a.isLit = false) (hdt : a.dtype = .NativeComplex)
    (hz : l1.isZero = true) (hnc : l1.dtype ≠ .NativeComplex) :
    resultIsCast (PythonComplex_new a (.lit l1)) = true ∧
    resultInternalVar (PythonComplex_new a (.lit l1)) = some a := by
  cases a <;>
    simp_all [PythonComplex_new, PythonComplex_init, isLitZeroE,
      Expr.isLit, Expr.dtype, resultIsCast, resultInternalVar]

/-- Witness for C2's amended claim at a Complex scalar variable z and the
default second argument, the float literal 0. -/
theorem pythonComplex_cast_nonliteral_witness :
    resultIsCast (PythonComplex_new (.var "z" .NativeComplex 8 0 none (some []))
      (.lit (.float 0 dpReal))) = true ∧
    resultInternalVar (PythonComplex_new (.var "z" .NativeComplex 8 0 none (some []))
      (.lit (.float 0 dpReal))) = some (.var "z" .NativeComplex 8 0 none (some [])) :=
  pythonComplex_cast_nonliteral _ (.float 0 dpReal) rfl rfl (by norm_num [Lit.isZero]) (by decide)

/-- C3: for every value x whose dtype is not Complex (and has a default
literal), taking the real part returns x itself — no wrapper node — and
taking the imaginary part returns the zero-valued default literal of x's
dtype instead of x. -/
theorem pythonRealImag_elision (x : Expr) (l : Lit)
    (hx : x.dtype ≠ .NativeComplex)
    (hl : get_default_literal_value x.dtype = some l) :
    PythonReal x = x ∧ PythonImag x = some (.lit l) ∧
    l.dtype = x.dtype ∧ l.isDefaultZero = true := by
  have h1 : PythonReal x = x := by simp [PythonReal, hx]
  have h2 : PythonImag x = some (.lit l) := by simp [PythonImag, hx, hl]
  have h3 : l.dtype = x.dtype ∧ l.isDefaultZero = true := by
    cases hdt : x.dtype <;> rw [hdt] at hl <;>
      simp [get_default_literal_value] at hl <;>
      subst hl <;> simp [Lit.dtype, Lit.isDefaultZero, hdt]
  exact ⟨h1, h2, h3.1, h3.2⟩

/-- Witness for C3 at a scalar integer variable. -/
theorem pythonRealImag_elision_witness :
    PythonReal (.var "x" .NativeInteger 4 0 none (some [])) =
      .var "x" .NativeInteger 4 0 none (some []) ∧
    PythonImag (.var "x" .NativeInteger 4 0 none (some [])) =
      some (.lit (.int 0 dpInteger)) ∧
    (Lit.int 0 dpInteger).dtype = (Expr.var "x" .NativeInteger 4 0 none (some [])).dtype ∧
    (Lit.int 0 dpInteger).isDefaultZero = true :=
  pythonRealImag_elision _ _ (by decide) rfl

/-- C5 counterexample: `sum` of a rank-1 2-byte-integer variable produces a
node whose precision is the default integer precision, not the argument's
precision 2 — the argument's precision is ignored. -/
theorem pythonSum_precision_counterexample :
    PythonSum_init (.var "x" .NativeInteger 2 1 (some .C) (some [.lit 10])) =
      some { dtype := .NativeInteger, precision := dpInteger, rank := 0 } ∧
    (Expr.var "x" .NativeInteger 2 1 (some .C) (some [.lit 10])).precision = 2 ∧
    dpInteger ≠ 2 :=
  ⟨rfl, rfl, by decide⟩

/-- C5 as amended: `sum` produces the argument's dtype at rank 0 but with
the default precision of that dtype (ignoring the argument's precision),
while `max` and `min` produce the argument's dtype and precision at
rank 0. -/
theorem reduction_builtin_typing (e : Expr) (p : Nat)
    (hp : default_precision e.dtype = some p) :
    PythonSum_init e = some { dtype := e.dtype, precision := p, rank := 0 } ∧
    (∀ t : PythonTuple,
      PythonMax_init t = { dtype := t.dtype, precision := t.precision, rank := 0 }) ∧
    (∀ x : Expr,
      PythonMin_init x = { dtype := x.dtype, precision := x.precision, rank := 0 }) :=
  ⟨by simp [PythonSum_init, hp], fun _ => rfl, fun _ => rfl⟩

/-- Witness for C5's amended claim at a 2-byte-integer array variable. -/
theorem reduction_builtin_typing_witness :
    PythonSum_init (.var "x" .NativeInteger 2 1 (some .C) (some [.lit 4])) =
      some { dtype := (Expr.var "x" .NativeInteger 2 1 (some .C) (some [.lit 4])).dtype,
             precision := 8, rank := 0 } ∧
    (∀ t : PythonTuple,
      PythonMax_init t = { dtype := t.dtype, precision := t.precision, rank := 0 }) ∧
    (∀ x : Expr,
      PythonMin_init x = { dtype := x.dtype, precision := x.precision, rank := 0 }) :=
  reduction_builtin_typing (.var "x" .NativeInteger 2 1 (some .C) (some [.lit 4])) 8 rfl

/-- C6 counterexample: `int()` applied to the Float literal 7/2 does not
fold — it produces an int-cast node wrapping the literal, not an Integer
literal. -/
theorem pythonInt_float_fold_counterexample :
    PythonInt_new (.lit (.float (7/2) dpReal)) = .pythonIntNode (.lit (.float (7/2) dpReal)) ∧
    Expr.isLit (PythonInt_new (.lit (.float (7/2) dpReal))) = false :=
  ⟨rfl, rfl⟩

/-- C6 as amended: `int()` folds Integer literals directly into an Integer
literal at the default integer precision with no cast node; any other
argument — Float literals included — yields an int-cast node. -/
theorem pythonInt_folding (v : Int) (p : Nat) (e : Expr)
    (he : ∀ w q, e ≠ .lit (.int w q)) :
    PythonInt_new (.lit (.int v p)) = .lit (.int v dpInteger) ∧
    PythonInt_new e = .pythonIntNode e := by
  refine ⟨rfl, ?_⟩
  cases e with
  | lit l => cases l with
    | int w q => exact absurd rfl (he w q)
    | _ => rfl
  | _ => rfl

/-- Witness for C6's amended claim at the Integer literal 5 (precision 2)
and the Float literal 3. -/
theorem pythonInt_folding_witness :
    PythonInt_new (.lit (.int 5 2)) = .lit (.int 5 dpInteger) ∧
    PythonInt_new (.lit (.float 3 dpReal)) = .pythonIntNode (.lit (.float 3 dpReal)) :=
  pythonInt_folding 5 2 (.lit (.float 3 dpReal)) (fun w q => by simp)

/-- C9 counterexample: the generated HostObject-to-Bool cast never mentions
the canonical False singleton — only Py_True appears in its body — so it
does not compare the argument against the two canonical Bool singletons. -/
theorem pybool_to_bool_pyfalse_counterexample :
    (pybool_to_bool "pybool_to_bool").body.any (cstmtMentions Py_False) = false ∧
    (pybool_to_bool "pybool_to_bool").body.any (cstmtMentions Py_True) = true :=
  ⟨rfl, rfl⟩

/-- C9 as amended: the generated HostObject-to-Bool cast determines its
result by a single identity comparison of the argument's address against
the canonical True singleton only; the False singleton is never consulted
and no generic truth test is used. -/
theorem pybool_to_bool_identity_compare (n : String) :
    comparesByIdentityWith (pybool_to_bool n) Py_True = true ∧
    (pybool_to_bool n).body.any (cstmtMentions Py_False) = false ∧
    usesGenericTruthTest (pybool_to_bool n) = false :=
  ⟨rfl, rfl, rfl⟩

/-- C10: whenever the native-argument list and the parse-target list have
different lengths, `PyArg_ParseTupleNode` construction raises `TypeError`
immediately — no format string is synthesized and no node exists. -/
theorem parse_tuple_length_mismatch (fa fk : CwVariable) (c_args : List CFuncArg)
    (p_args : List CwVariable) (kw : PyArgKeywords)
    (h : p_args.length ≠ c_args.length) :
    PyArg_ParseTupleNode_init fa fk c_args p_args kw =
      .error (.typeError "There should be the same number of c_func_args and parse_args") := by
  simp [PyArg_ParseTupleNode_init, h]

/-- Witness for C10: one native argument against an empty parse-target
list. -/
theorem parse_tuple_length_mismatch_witness :
    PyArg_ParseTupleNode_init
      { dtype := .PyccelPyObject, name := "args", is_pointer := true }
      { dtype := .PyccelPyObject, name := "kwargs", is_pointer := true }
      [.plain { dtype := .NativeInteger, name := "x", precision := 4 } false] []
      { name := "kwlist", arg_names := ["x"] } =
      .error (.typeError "There should be the same number of c_func_args and parse_args") :=
  parse_tuple_length_mismatch _ _ _ _ _ (by decide)

/-- Each element after the first of a tuple whose homogeneity flag is set
shares dtype, rank and order with element 0 and is not Generic. -/
theorem tupleIsHomog_elt (a0 : Expr) (rest : List Expr)
    (hb : tupleIsHomog a0 rest = true) :
    ∀ a ∈ rest, a.dtype = a0.dtype ∧ a.rank = a0.rank ∧ a.order = a0.order ∧
      a.dtype ≠ DType.NativeGeneric := by
  intro a ha
  simp only [tupleIsHomog, List.all_eq_true, Bool.and_eq_true, decide_eq_true_eq] at hb
  obtain ⟨⟨⟨hg, hd⟩, hr⟩, ho⟩ := hb a ha
  exact ⟨hd.symm, hr.symm, ho.symm, hg⟩

/-- The specification's homogeneity condition implies the source's flag. -/
theorem tupleClaimHomog_imp_isHomog (a0 : Expr) (rest : List Expr)
    (h : tupleClaimHomog a0 rest = true) : tupleIsHomog a0 rest = true := by
  simp only [tupleClaimHomog, List.all_cons, List.all_eq_true, Bool.and_eq_true,
    decide_eq_true_eq] at h
  simp only [tupleIsHomog, List.all_eq_true, Bool.and_eq_true, decide_eq_true_eq]
  intro a ha
  obtain ⟨⟨⟨hd, hr⟩, ho⟩, hg⟩ := h.2 a ha
  exact ⟨⟨⟨hg, hd.symm⟩, hr.symm⟩, ho.symm⟩

/-- A node the homogeneous branch successfully constructs carries the flag
set. -/
theorem homogBranch_ok_isHomog (a0 : Expr) (rest : List Expr) (t : PythonTuple)
    (h : tupleHomogBranch a0 rest = .ok t) : t.is_homogeneous = true := by
  simp only [tupleHomogBranch] at h
  repeat' split at h
  all_goals first
    | (injection h with h2; subst h2; rfl)
    | exact Except.noConfusion h

/-- A node the heterogeneous branch successfully constructs carries the
flag cleared. -/
theorem heteroBranch_ok_isHomog (a0 : Expr) (rest : List Expr) (t : PythonTuple)
    (h : tupleHeteroBranch a0 rest = .ok t) : t.is_homogeneous = false := by
  simp only [tupleHeteroBranch] at h
  split at h
  all_goals first
    | (injection h with h2; subst h2; rfl)
    | exact Except.noConfusion h

/-- Filtering for a non-Generic dtype over all-Generic elements is empty. -/
theorem filter_dtype_nil (xs : List Expr) (dt : DType)
    (hall : ∀ a ∈ xs, a.dtype = DType.NativeGeneric) (hdt : dt ≠ DType.NativeGeneric) :
    xs.filter (fun a => decide (a.dtype = dt)) = [] := by
  apply List.filter_eq_nil_iff.mpr
  intro a ha
  simp only [decide_eq_true_eq]
  rw [hall a ha]
  exact fun hc => hdt hc.symm

/-- The numeric cascade finds no class among all-Generic elements. -/
theorem tupleNumericDtypePrec_all_generic (xs : List Expr)
    (hall : ∀ a ∈ xs, a.dtype = DType.NativeGeneric) :
    tupleNumericDtypePrec xs = none := by
  unfold tupleNumericDtypePrec
  rw [filter_dtype_nil xs .NativeComplex hall (by simp),
      filter_dtype_nil xs .NativeReal hall (by simp),
      filter_dtype_nil xs .NativeInteger hall (by simp),
      filter_dtype_nil xs .NativeBool hall (by simp)]
  rfl

/-- On all-Generic elements the homogeneous branch raises the
cannot-determine-the-type error. -/
theorem homogBranch_generic_err (a0 : Expr) (rest : List Expr)
    (hall : ∀ a ∈ (a0 :: rest), a.dtype = DType.NativeGeneric) :
    tupleHomogBranch a0 rest = .error "cannot determine the type" := by
  simp only [tupleHomogBranch]
  rw [filter_dtype_nil (a0 :: rest) .NativeString hall (by simp),
      tupleNumericDtypePrec_all_generic (a0 :: rest) hall]
  rfl

/-- C4: for every successfully constructed aggregate of N >= 1 elements,
the `is_homogeneous` flag is true exactly when every element shares dtype,
rank and memory order with element 0 and no element — element 0 included —
has dtype Generic. -/
theorem pythonTuple_homogeneity (a0 : Expr) (rest : List Expr) (t : PythonTuple)
    (h : PythonTuple_init (a0 :: rest) = .ok t) :
    t.is_homogeneous = tupleClaimHomog a0 rest := by
  by_cases hb : tupleIsHomog a0 rest = true
  · have hinit : tupleHomogBranch a0 rest = .ok t := by
      simpa [PythonTuple_init, hb] using h
    have hflag : t.is_homogeneous = true := homogBranch_ok_isHomog _ _ _ hinit
    have hng : a0.dtype ≠ DType.NativeGeneric := by
      intro hg
      have hall : ∀ a ∈ (a0 :: rest), a.dtype = DType.NativeGeneric := by
        intro a ha
        rcases List.mem_cons.mp ha with h0 | h0
        · rw [h0, hg]
        · rw [(tupleIsHomog_elt a0 rest hb a h0).1, hg]
      rw [homogBranch_generic_err a0 rest hall] at hinit
      exact Except.noConfusion hinit
    have hclaim : tupleClaimHomog a0 rest = true := by
      simp only [tupleClaimHomog, List.all_cons, List.all_eq_true, Bool.and_eq_true,
        decide_eq_true_eq]
      constructor
      · simp [hng]
      · intro a ha
        obtain ⟨hd, hr, ho, hg⟩ := tupleIsHomog_elt a0 rest hb a ha
        simp [hd, hr, ho, hg, hng]
    rw [hflag, hclaim]
  · have hb2 : tupleIsHomog a0 rest = false := by simpa using hb
    have hinit : tupleHeteroBranch a0 rest = .ok t := by
      simpa [PythonTuple_init, hb2] using h
    have hflag : t.is_homogeneous = false := heteroBranch_ok_isHomog _ _ _ hinit
    have hclaim : tupleClaimHomog a0 rest = false := by
      by_contra hc
      exact hb (tupleClaimHomog_imp_isHomog a0 rest (by simpa using hc))
    rw [hflag, hclaim]

/-- Witness for C4 at the tuple (1, 2, 3) of integer literals. -/
theorem pythonTuple_homogeneity_witness :
    ({ args := [.lit (.int 1 8), .lit (.int 2 8), .lit (.int 3 8)],
       is_homogeneous := true, inconsistent_shape := some false,
       dtype := some .NativeInteger, precision := some 8, rank := some 1,
       shape := some [.lit 3] } : PythonTuple).is_homogeneous =
      tupleClaimHomog (.lit (.int 1 8)) [.lit (.int 2 8), .lit (.int 3 8)] :=
  pythonTuple_homogeneity _ _ _ rfl

/-- Splitting along a boundary where the predicate flips recovers the two
halves through `takeWhile`/`dropWhile`. -/
theorem takeWhile_split {α : Type} (q : α → Bool) (pre post : List α)
    (hpre : ∀ x ∈ pre, q x = true) (hpost : ∀ x, post.head? = some x → q x = false) :
    (pre ++ post).takeWhile q = pre ∧ (pre ++ post).dropWhile q = post := by
  induction pre with
  | nil =>
    simp only [List.nil_append]
    cases post with
    | nil => simp
    | cons y ys =>
      have hy := hpost y rfl
      simp [List.takeWhile_cons, List.dropWhile_cons, hy]
  | cons x xs ih =>
    have hx : q x = true := hpre x (List.mem_cons_self x xs)
    have ih2 := ih fun z hz => hpre z (List.mem_cons_of_mem _ hz)
    simp [List.takeWhile_cons, List.dropWhile_cons, hx, ih2.1, ih2.2]

/-- C7: parse-format synthesis appends each parameter's format code in
declared order, inserting exactly one separator immediately before the first
defaulted parameter (and none when no parameter has a default): for any
split of the argument pairing into a default-free prefix and a remainder
beginning at the first defaulted parameter, the flags are the prefix codes,
then a single bar, then the remainder codes. In particular the signature
(x: Integer32, y: Real64 = 0.0) yields the parse-format string composed of
the integer code, the separator and the real code. -/
theorem parse_format_separator (pre post : List (CFuncArg × CwVariable)) (f1 f2 : String)
    (hpre : ∀ cp ∈ pre, cp.1.isValued = false)
    (hpost : ∀ cp, post.head? = some cp → cp.1.isValued = true)
    (h1 : codesFor pre = .ok f1) (h2 : codesFor post = .ok f2) :
    parseFlagsPairs (pre ++ post) =
      .ok (if post.isEmpty then f1 else f1 ++ "|" ++ f2) ∧
    (PyArg_ParseTupleNode_init
      { dtype := .PyccelPyObject, name := "args", is_pointer := true }
      { dtype := .PyccelPyObject, name := "kwargs", is_pointer := true }
      [.plain { dtype := .NativeInteger, name := "x", precision := 4 } false,
       .valued { dtype := .NativeReal, name := "y", precision := 8 } false]
      [{ dtype := .NativeInteger, name := "x", precision := 4 },
       { dtype := .NativeReal, name := "y", precision := 8 }]
      { name := "kwlist", arg_names := ["x", "y"] }).map PyArg_ParseTupleNode.flags =
      .ok "i|d" := by
  refine ⟨?_, rfl⟩
  obtain ⟨ht, hd⟩ := takeWhile_split (fun cp => !cp.1.isValued) pre post
    (fun cp hcp => by simp [hpre cp hcp])
    (fun cp hcp => by simp [hpost cp hcp])
  simp only [parseFlagsPairs]
  rw [ht, hd, h1]
  cases post with
  | nil =>
    injection h2 with h2e
    subst h2e
    rfl
  | cons y ys =>
    rw [h2]
    rfl

/-- Witness for C7: the split of the (x: Integer32, y: Real64 = 0.0)
pairing into its default-free prefix and its defaulted remainder. -/
theorem parse_format_separator_witness :
    parseFlagsPairs
      ([(.plain { dtype := .NativeInteger, name := "x", precision := 4 } false,
         ({ dtype := .NativeInteger, name := "x", precision := 4 } : CwVariable))] ++
       [(.valued { dtype := .NativeReal, name := "y", precision := 8 } false,
         ({ dtype := .NativeReal, name := "y", precision := 8 } : CwVariable))]) =
      .ok (if ([(.valued ({ dtype := .NativeReal, name := "y", precision := 8 } : CwVariable) false,
                 ({ dtype := .NativeReal, name := "y", precision := 8 } : CwVariable))] :
                List (CFuncArg × CwVariable)).isEmpty
           then "i" else "i" ++ "|" ++ "d") ∧
    (PyArg_ParseTupleNode_init
      { dtype := .PyccelPyObject, name := "args", is_pointer := true }
      { dtype := .PyccelPyObject, name := "kwargs", is_pointer := true }
      [.plain { dtype := .NativeInteger, name := "x", precision := 4 } false,
       .valued { dtype := .NativeReal, name := "y", precision := 8 } false]
      [{ dtype := .NativeInteger, name := "x", precision := 4 },
       { dtype := .NativeReal, name := "y", precision := 8 }]
      { name := "kwlist", arg_names := ["x", "y"] }).map PyArg_ParseTupleNode.flags =
      .ok "i|d" :=
  parse_format_separator _ _ "i" "d"
    (by intro cp hcp; simp at hcp; subst hcp; rfl)
    (by intro cp hcp; simp at hcp; subst hcp; rfl)
    rfl rfl

/-- Any error `get_pytype` raises is the not-implemented diagnostic. -/
theorem get_pytype_error_eq (c : CFuncArg) (p : CwVariable) (e : CwErr)
    (h : get_pytype c p = .error e) :
    e = .notImplemented "Type not implemented for argument collection : Variable" := by
  cases c with
  | funcAddress n k => exact Except.noConfusion h
  | plain v k =>
    unfold get_pytype at h
    cases hreg : pytype_parse_registry p.dtype p.precision with
    | some s => rw [hreg] at h; exact Except.noConfusion h
    | none => rw [hreg] at h; injection h with h2; exact h2.symm
  | valued v k =>
    unfold get_pytype at h
    cases hreg : pytype_parse_registry p.dtype p.precision with
    | some s => rw [hreg] at h; exact Except.noConfusion h
    | none => rw [hreg] at h; injection h with h2; exact h2.symm

/-- Any error a run of format-code lookups raises is the not-implemented
diagnostic. -/
theorem codesFor_error_eq (pairs : List (CFuncArg × CwVariable)) (e : CwErr)
    (h : codesFor pairs = .error e) :
    e = .notImplemented "Type not implemented for argument collection : Variable" := by
  induction pairs with
  | nil => exact Except.noConfusion h
  | cons x xs ih =>
    unfold codesFor at h
    cases hget : get_pytype x.1 x.2 with
    | error e2 =>
      rw [hget] at h
      injection h with h2
      subst h2
      exact get_pytype_error_eq x.1 x.2 _ hget
    | ok s =>
      rw [hget] at h
      cases hrest : codesFor xs with
      | error e2 =>
        rw [hrest] at h
        injection h with h2
        subst h2
        exact ih hrest
      | ok r => rw [hrest] at h; exact Except.noConfusion h

/-- A run of format-code lookups containing a non-callable parameter whose
pair is missing from the registry raises the not-implemented diagnostic. -/
theorem codesFor_missing_error (pairs : List (CFuncArg × CwVariable))
    (c : CFuncArg) (pv : CwVariable)
    (hmem : (c, pv) ∈ pairs) (hnf : c.isFuncAddr = false)
    (hmiss : pytype_parse_registry pv.dtype pv.precision = none) :
    codesFor pairs =
      .error (.notImplemented "Type not implemented for argument collection : Variable") := by
  induction pairs with
  | nil => cases hmem
  | cons x xs ih =>
    have hg : get_pytype c pv =
        .error (.notImplemented "Type not implemented for argument collection : Variable") := by
      cases c with
      | funcAddress n k => exact absurd hnf (by simp [CFuncArg.isFuncAddr])
      | plain v k => simp [get_pytype, hmiss]
      | valued v k => simp [get_pytype, hmiss]
    rcases List.mem_cons.mp hmem with hx | hx
    · unfold codesFor
      rw [← hx, hg]
    · unfold codesFor
      cases hget : get_pytype x.1 x.2 with
      | error e2 => rw [get_pytype_error_eq x.1 x.2 e2 hget]
      | ok s => rw [ih hx]

/-- A run of build-value lookups containing a missing pair raises the bare
key lookup error. -/
theorem buildFlags_missing (results : List CwVariable) (r : CwVariable)
    (hrmem : r ∈ results)
    (hrmiss : pytype_parse_registry r.dtype r.precision = none) :
    buildFlags results = .error .keyError := by
  induction results with
  | nil => cases hrmem
  | cons x xs ih =>
    rcases List.mem_cons.mp hrmem with hx | hx
    · unfold buildFlags
      rw [← hx, hrmiss]
    · unfold buildFlags
      cases hreg : pytype_parse_registry x.dtype x.precision with
      | none => rfl
      | some s => rw [ih hx]; rfl

/-- C8: during parse-format synthesis a non-callable parameter whose
(dtype, precision) pair is absent from the format-code table makes the
synthesis fail with the fatal not-implemented diagnostic, and during
build-value synthesis a result whose pair is absent makes the synthesis
fail with the (uncaught) key lookup error; in neither case is any code
silently substituted — no flags string is produced. -/
theorem missing_format_code_fatal (pairs : List (CFuncArg × CwVariable))
    (results : List CwVariable) (c : CFuncArg) (pv r : CwVariable)
    (hmem : (c, pv) ∈ pairs) (hnf : c.isFuncAddr = false)
    (hmiss : pytype_parse_registry pv.dtype pv.precision = none)
    (hrmem : r ∈ results)
    (hrmiss : pytype_parse_registry r.dtype r.precision = none) :
    parseFlagsPairs pairs =
      .error (.notImplemented "Type not implemented for argument collection : Variable") ∧
    PyBuildValueNode_init results = .error .keyError := by
  constructor
  · simp only [parseFlagsPairs]
    have hsplit : (pairs.takeWhile fun cp => !cp.1.isValued) ++
        (pairs.dropWhile fun cp => !cp.1.isValued) = pairs :=
      List.takeWhile_append_dropWhile (fun cp => !cp.1.isValued) pairs
    have hmem2 : (c, pv) ∈ (pairs.takeWhile fun cp => !cp.1.isValued) ++
        (pairs.dropWhile fun cp => !cp.1.isValued) := by rw [hsplit]; exact hmem
    rcases List.mem_append.mp hmem2 with hin | hin
    · rw [codesFor_missing_error _ c pv hin hnf hmiss]
    · cases hcf : codesFor (pairs.takeWhile fun cp => !cp.1.isValued) with
      | error e =>
        rw [codesFor_error_eq _ e hcf]
      | ok f1 =>
        have hne : (pairs.dropWhile fun cp => !cp.1.isValued).isEmpty = false := by
          cases hdw : pairs.dropWhile fun cp => !cp.1.isValued with
          | nil => rw [hdw] at hin; cases hin
          | cons y ys => rfl
        rw [hne, codesFor_missing_error _ c pv hin hnf hmiss]
        rfl
  · unfold PyBuildValueNode_init
    rw [buildFlags_missing results r hrmem hrmiss]
    rfl

/-- Witness for C8: an 8-byte Bool parameter (no registry entry) and a
2-byte Real result (no registry entry). -/
theorem missing_format_code_fatal_witness :
    parseFlagsPairs [(.plain { dtype := .NativeBool, name := "b", precision := 8 } false,
                      ({ dtype := .NativeBool, name := "b", precision := 8 } : CwVariable))] =
      .error (.notImplemented "Type not implemented for argument collection : Variable") ∧
    PyBuildValueNode_init [{ dtype := .NativeReal, name := "r", precision := 2 }] =
      .error .keyError :=
  missing_format_code_fatal _ _
    (.plain { dtype := .NativeBool, name := "b", precision := 8 } false)
    { dtype := .NativeBool, name := "b", precision := 8 }
    { dtype := .NativeReal, name := "r", precision := 2 }
    (by simp) rfl rfl (by simp) rfl

end Pyccel
